import Mathlib

/-!
Verification of the PEC (Protocol-Embedded Compliance) example repository:
a shallow embedding in Lean 4 of the compliance-evaluation core
(`ai-agent/src/compliance-filter.ts`, `ai-agent/src/pec-types.ts`,
`ai-agent/src/audit-logger.ts`, `ai-agent/src/deployment-context.ts`),
together with theorems settling the specification's claims about it.

Conventions of the embedding:
* TypeScript string-literal unions become Lean inductive types; plain
  `string` stays `String`; arrays become `List`; `T | undefined` becomes
  `Option T`.
* The two in-memory `Set`s built by `isLocationAllowed` are modelled as
  lists queried with `List.contains`, which has the same membership
  semantics.
* The mutable `result` record threaded through `checkCompliance` becomes
  explicit state passing (`pushReason` / `pushWarning` over an accumulator).
* The audit side effect (entries appended to the global logger) is modelled
  as the list of entries one call appends, assuming a logger is installed;
  the nondeterministic entry fields (`id`, `timestamp`, `session_id`) and
  the narrative `reasoning_trace` are outside the claims and omitted.
-/

namespace PEC

/-- The six-level risk enumeration `AiActClassification` from pec-types.ts. -/
inductive AiActClassification where
  | minimal
  | limited
  | high
  | unacceptable
  | gpai
  | gpai_systemic
deriving DecidableEq, Repr

/-- The TypeScript literal string a classification value denotes. -/
def classificationString : AiActClassification → String
  | .minimal => "minimal"
  | .limited => "limited"
  | .high => "high"
  | .unacceptable => "unacceptable"
  | .gpai => "gpai"
  | .gpai_systemic => "gpai_systemic"

/-- `ControllerProcessorStatus` from pec-types.ts. -/
inductive ControllerProcessorStatus where
  | controller
  | processor
  | joint_controller
deriving DecidableEq, Repr

/-- The `update_frequency` union of `metadata_currency` from pec-types.ts. -/
inductive UpdateFrequency where
  | real_time
  | daily
  | weekly
  | monthly
deriving DecidableEq, Repr

/-- The per-dimension `unknown_handling` union from pec-types.ts. -/
inductive UnknownHandlingMode where
  | strict
  | permissive
  | escalate
deriving DecidableEq, Repr

/-- The `legacy_servers.policy` union from pec-types.ts. -/
inductive LegacyServerPolicy where
  | allow
  | warn
  | block
deriving DecidableEq, Repr

/-- `ai_act_status` part of `PecComplianceMetadata` (pec-types.ts). -/
structure AiActStatus where
  classification : AiActClassification
  conformity_assessed : Bool
  notified_body : Option String
deriving DecidableEq, Repr

/-- `gdpr` part of `PecComplianceMetadata` (pec-types.ts). Transfer
mechanisms are the string-literal union `GdprTransferMechanism`,
modelled as `String`. -/
structure GdprMetadata where
  controller_processor_status : ControllerProcessorStatus
  transfer_mechanisms : List String
  dpa_registered : Bool
  special_categories_processed : Bool
deriving DecidableEq, Repr

/-- `metadata_currency` part of `PecComplianceMetadata` (pec-types.ts). -/
structure MetadataCurrency where
  last_updated : String
  update_frequency : UpdateFrequency
  next_scheduled_review : Option String
deriving DecidableEq, Repr

/-- `PecComplianceMetadata` from pec-types.ts. -/
structure PecComplianceMetadata where
  pec_version : String
  processing_locations : List String
  data_retention_days : Nat
  certifications : List String
  ai_act_status : AiActStatus
  gdpr : GdprMetadata
  suitable_for : List String
  unsuitable_for : List String
  supply_chain_disclosure : Bool
  metadata_currency : MetadataCurrency
deriving DecidableEq, Repr

/-- `data_residency` part of `DeploymentContext` (pec-types.ts). -/
structure DataResidency where
  required : List String
  prohibited : List String
deriving DecidableEq, Repr

/-- `gdpr_requirements` part of `DeploymentContext`. The interface declares
both fields required, but every consumer guards for absence
(`checkTransferMechanisms` takes `string[] | undefined`,
`checkSpecialCategories` takes `boolean | undefined`, the audit logger
optional-chains both), so absence is representable here. -/
structure GdprRequirements where
  transfer_mechanisms_required : Option (List String)
  special_categories_allowed : Option Bool
deriving DecidableEq, Repr

/-- `human_escalation` part of `risk_classification` (pec-types.ts). -/
structure HumanEscalation where
  required_above : AiActClassification
deriving DecidableEq, Repr

/-- `risk_classification` part of `DeploymentContext` (pec-types.ts). -/
structure RiskClassificationPolicy where
  maximum_permitted : AiActClassification
  human_escalation : Option HumanEscalation
deriving DecidableEq, Repr

/-- `sectors` part of `DeploymentContext` (pec-types.ts). -/
structure SectorPolicy where
  prohibited : List String
deriving DecidableEq, Repr

/-- `certifications` part of `DeploymentContext` (pec-types.ts). -/
structure CertificationPolicy where
  required_any : List String
deriving DecidableEq, Repr

/-- `unknown_handling` part of `DeploymentContext` (pec-types.ts). -/
structure UnknownHandlingPolicy where
  processing_locations : UnknownHandlingMode
  certifications : UnknownHandlingMode
  ai_act_status : UnknownHandlingMode
deriving DecidableEq, Repr

/-- `legacy_servers` part of `DeploymentContext` (pec-types.ts). -/
structure LegacyServers where
  policy : LegacyServerPolicy
  log_invocations : Bool
deriving DecidableEq, Repr

/-- `DeploymentContext` from pec-types.ts. The code path in
compliance-filter.ts guards `gdpr_requirements` for truthiness before use,
so it is modelled as optional. -/
structure DeploymentContext where
  governing_law : String
  jurisdiction : String
  data_residency : DataResidency
  gdpr_requirements : Option GdprRequirements
  risk_classification : RiskClassificationPolicy
  sectors : SectorPolicy
  certifications : CertificationPolicy
  unknown_handling : UnknownHandlingPolicy
  legacy_servers : LegacyServers
deriving DecidableEq, Repr

/-- `ComplianceCheckResult` from compliance-filter.ts. -/
structure ComplianceCheckResult where
  compliant : Bool
  reasons : List String
  warnings : List String
deriving DecidableEq, Repr

/-- `EU_COUNTRIES` from compliance-filter.ts. -/
def EU_COUNTRIES : List String :=
  ["DE", "FR", "IE", "NL", "BE", "AT", "ES", "IT", "PT", "PL", "SE", "DK",
   "FI", "CZ", "RO", "HU", "BG", "GR", "SK", "HR", "SI", "LT", "LV", "EE",
   "CY", "LU", "MT"]

/-- `EEA_COUNTRIES` from compliance-filter.ts. -/
def EEA_COUNTRIES : List String := EU_COUNTRIES ++ ["NO", "IS", "LI"]

/-- `ADEQUACY_COUNTRIES` from compliance-filter.ts. -/
def ADEQUACY_COUNTRIES : List String :=
  ["GB", "CH", "JP", "KR", "CA", "NZ", "IL", "AR", "UY"]

/-- The `RISK_LEVELS` ordinal table from compliance-filter.ts. -/
def riskLevel : AiActClassification → Nat
  | .minimal => 1
  | .limited => 2
  | .gpai => 3
  | .high => 4
  | .gpai_systemic => 5
  | .unacceptable => 6

/-- JavaScript's `String.prototype.toUpperCase`, modelled character-wise
(every code compared by the filter is ASCII, where the two agree). Lean's
own `String.toUpper` maps the same `Char.toUpper` over the characters but
goes through `String.mapAux`, which the kernel cannot evaluate; this
structural definition evaluates. -/
def toUpperCase (s : String) : String := ⟨s.data.map Char.toUpper⟩

/-- `expandJurisdiction` from compliance-filter.ts. -/
def expandJurisdiction (code : String) : List String :=
  let upperCode := toUpperCase code
  if upperCode = "EU" then EU_COUNTRIES
  else if upperCode = "EEA" then EEA_COUNTRIES
  else if upperCode = "ADEQUACY" then EEA_COUNTRIES ++ ADEQUACY_COUNTRIES
  else [upperCode]

/-- `isLocationAllowed` from compliance-filter.ts. The TypeScript builds
two `Set`s by expanding each code; list membership over the concatenated
expansions is the same predicate. -/
def isLocationAllowed (location : String) (required prohibited : List String) : Bool :=
  let allowedLocations := (required.map expandJurisdiction).flatten
  let blockedLocations := (prohibited.map expandJurisdiction).flatten
  let upperLocation := toUpperCase location
  if blockedLocations.contains upperLocation then false
  else allowedLocations.contains upperLocation

/-- Reason text pushed for a disallowed processing location
(compliance-filter.ts line 136); it interpolates the location as declared,
not uppercased. -/
def locationReasonMsg (location : String) : String :=
  "Processing location '" ++ location ++ "' is not allowed under deployment context"

/-- Reason text for a risk classification above the permitted maximum
(compliance-filter.ts line 146). -/
def riskReasonMsg (classification maximum_permitted : AiActClassification) : String :=
  "Tool risk classification '" ++ classificationString classification ++
    "' exceeds maximum permitted '" ++ classificationString maximum_permitted ++ "'"

/-- Text used both as reason and as warning by the conformity-assessment
check (compliance-filter.ts lines 153 and 155). -/
def conformityMsg : String := "Tool has not undergone conformity assessment"

/-- Reason text of `checkTransferMechanisms` when the tool declares zero
mechanisms (compliance-filter.ts line 68). -/
def transferNoneDeclaredMsg (requiredMechanisms : List String) : String :=
  "Tool declares no GDPR transfer mechanisms but context requires one of: " ++
    String.intercalate ", " requiredMechanisms

/-- Reason text of `checkTransferMechanisms` when the declared mechanisms
overlap none of the required ones (compliance-filter.ts line 79). -/
def transferNoOverlapMsg (toolMechanisms requiredMechanisms : List String) : String :=
  "Tool transfer mechanisms [" ++ String.intercalate ", " toolMechanisms ++
    "] do not include any required mechanism: " ++ String.intercalate ", " requiredMechanisms

/-- Reason text of `checkSpecialCategories` (compliance-filter.ts line 97). -/
def specialCategoriesMsg : String :=
  "Tool processes GDPR special categories (Art 9) but deployment context prohibits this"

/-- Reason text for a prohibited-sector conflict (compliance-filter.ts line 182). -/
def sectorReasonMsg (prohibited : String) : String :=
  "Tool is suitable for prohibited sector: '" ++ prohibited ++ "'"

/-- Reason text of the certification check under strict handling
(compliance-filter.ts line 194). -/
def certificationsReasonMsg (required_any : List String) : String :=
  "Tool lacks required certifications. Required one of: " ++
    String.intercalate ", " required_any

/-- Warning text of the certification check under non-strict handling
(compliance-filter.ts line 198). -/
def certificationsWarningMsg (required_any : List String) : String :=
  "Tool lacks preferred certifications: " ++ String.intercalate ", " required_any

/-- Warning text of the supply-chain check (compliance-filter.ts line 204). -/
def supplyChainMsg : String := "Tool has not disclosed supply chain dependencies"

/-- Reason text when metadata is absent and legacy servers are blocked
(compliance-filter.ts line 118). -/
def legacyBlockedMsg : String :=
  "Tool lacks PEC compliance metadata and legacy servers are blocked"

/-- Warning text when metadata is absent under the warn policy
(compliance-filter.ts line 120). -/
def legacyWarnMsg : String := "Tool lacks PEC compliance metadata (legacy server)"

/-- Reason text when metadata is present without a version string
(compliance-filter.ts line 128). -/
def noVersionMsg : String := "Tool does not declare PEC version"

/-- Return shape of `checkTransferMechanisms` and `checkSpecialCategories`:
`{ valid: boolean; reason?: string }`. -/
structure CheckOutcome where
  valid : Bool
  reason : Option String
deriving DecidableEq, Repr

/-- `checkTransferMechanisms` from compliance-filter.ts. -/
def checkTransferMechanisms (toolMechanisms : List String)
    (requiredMechanisms : Option (List String)) : CheckOutcome :=
  match requiredMechanisms with
  | none => ⟨true, none⟩
  | some req =>
    if req.length = 0 then ⟨true, none⟩
    else if toolMechanisms.length = 0 then ⟨false, some (transferNoneDeclaredMsg req)⟩
    else
      let hasRequiredMechanism := toolMechanisms.any (fun mechanism => req.contains mechanism)
      if hasRequiredMechanism then ⟨true, none⟩
      else ⟨false, some (transferNoOverlapMsg toolMechanisms req)⟩

/-- `checkSpecialCategories` from compliance-filter.ts. -/
def checkSpecialCategories (toolProcessesSpecialCategories : Bool)
    (contextAllowsSpecialCategories : Option Bool) : CheckOutcome :=
  match contextAllowsSpecialCategories with
  | none => ⟨true, none⟩
  | some allowed =>
    if toolProcessesSpecialCategories && !allowed then ⟨false, some specialCategoriesMsg⟩
    else ⟨true, none⟩

/-- `result.compliant = false` plus `result.reasons.push(reason)`: the state
update every fatal branch of `checkCompliance` performs. -/
def pushReason (r : ComplianceCheckResult) (reason : String) : ComplianceCheckResult :=
  ⟨false, r.reasons ++ [reason], r.warnings⟩

/-- `result.warnings.push(warning)`: the state update of every warning
branch; it leaves `compliant` untouched. -/
def pushWarning (r : ComplianceCheckResult) (warning : String) : ComplianceCheckResult :=
  ⟨r.compliant, r.reasons, r.warnings ++ [warning]⟩

/-- The location loop of `checkCompliance` (compliance-filter.ts 133-138). -/
def applyLocationCheck (c : PecComplianceMetadata) (context : DeploymentContext)
    (r : ComplianceCheckResult) : ComplianceCheckResult :=
  c.processing_locations.foldl
    (fun acc location =>
      if isLocationAllowed location context.data_residency.required
          context.data_residency.prohibited then acc
      else pushReason acc (locationReasonMsg location))
    r

/-- The risk-threshold block of `checkCompliance` (lines 140-148). -/
def applyRiskCheck (c : PecComplianceMetadata) (context : DeploymentContext)
    (r : ComplianceCheckResult) : ComplianceCheckResult :=
  let maxPermittedLevel := riskLevel context.risk_classification.maximum_permitted
  let toolRiskLevel := riskLevel c.ai_act_status.classification
  if toolRiskLevel > maxPermittedLevel then
    pushReason r (riskReasonMsg c.ai_act_status.classification
      context.risk_classification.maximum_permitted)
  else r

/-- The conformity-assessment block of `checkCompliance` (lines 150-157). -/
def applyConformityCheck (c : PecComplianceMetadata) (context : DeploymentContext)
    (r : ComplianceCheckResult) : ComplianceCheckResult :=
  if c.ai_act_status.conformity_assessed then r
  else if context.unknown_handling.ai_act_status = UnknownHandlingMode.strict then
    pushReason r conformityMsg
  else pushWarning r conformityMsg

/-- The GDPR block of `checkCompliance` (lines 159-177): transfer-mechanism
check then special-categories check, each pushing its reason when invalid. -/
def applyGdprChecks (c : PecComplianceMetadata) (context : DeploymentContext)
    (r : ComplianceCheckResult) : ComplianceCheckResult :=
  match context.gdpr_requirements with
  | none => r
  | some g =>
    let transferCheck := checkTransferMechanisms c.gdpr.transfer_mechanisms
      g.transfer_mechanisms_required
    let r1 := match transferCheck.valid, transferCheck.reason with
      | false, some reason => pushReason r reason
      | _, _ => r
    let specialCatCheck := checkSpecialCategories c.gdpr.special_categories_processed
      g.special_categories_allowed
    match specialCatCheck.valid, specialCatCheck.reason with
    | false, some reason => pushReason r1 reason
    | _, _ => r1

/-- The prohibited-sector loop of `checkCompliance` (lines 179-184). -/
def applySectorCheck (c : PecComplianceMetadata) (context : DeploymentContext)
    (r : ComplianceCheckResult) : ComplianceCheckResult :=
  context.sectors.prohibited.foldl
    (fun acc prohibited =>
      if c.suitable_for.contains prohibited then
        pushReason acc (sectorReasonMsg prohibited)
      else acc)
    r

/-- The certification block of `checkCompliance` (lines 186-201). -/
def applyCertificationCheck (c : PecComplianceMetadata) (context : DeploymentContext)
    (r : ComplianceCheckResult) : ComplianceCheckResult :=
  let hasCertification := context.certifications.required_any.any
    (fun cert => c.certifications.contains cert)
  if hasCertification = false ∧ 0 < context.certifications.required_any.length then
    if context.unknown_handling.certifications = UnknownHandlingMode.strict then
      pushReason r (certificationsReasonMsg context.certifications.required_any)
    else pushWarning r (certificationsWarningMsg context.certifications.required_any)
  else r

/-- The supply-chain block of `checkCompliance` (lines 203-205). -/
def applySupplyChainCheck (c : PecComplianceMetadata)
    (r : ComplianceCheckResult) : ComplianceCheckResult :=
  if c.supply_chain_disclosure then r else pushWarning r supplyChainMsg

/-- The full check battery `checkCompliance` runs once metadata is present
with a version string: the eight blocks of lines 133-205 in source order,
threading the mutable result record. -/
def runChecks (c : PecComplianceMetadata) (context : DeploymentContext) : ComplianceCheckResult :=
  applySupplyChainCheck c
    (applyCertificationCheck c context
      (applySectorCheck c context
        (applyGdprChecks c context
          (applyConformityCheck c context
            (applyRiskCheck c context
              (applyLocationCheck c context ⟨true, [], []⟩))))))

/-- `checkCompliance` from compliance-filter.ts, as the pure evaluation
result it returns. Metadata absent consults the legacy policy and returns;
metadata present without a version string likewise returns early (lines
125-131); otherwise the full battery runs. The audit side effect of the
same function is modelled by `checkComplianceAuditEntries`. -/
def checkCompliance (compliance : Option PecComplianceMetadata)
    (context : DeploymentContext) : ComplianceCheckResult :=
  match compliance with
  | none =>
    match context.legacy_servers.policy with
    | .block => ⟨false, [legacyBlockedMsg], []⟩
    | .warn => ⟨true, [], [legacyWarnMsg]⟩
    | .allow => ⟨true, [], []⟩
  | some c =>
    if c.pec_version = "" then
      match context.legacy_servers.policy with
      | .block => ⟨false, [noVersionMsg], []⟩
      | _ => ⟨true, [], []⟩
    else runChecks c context

/-- `AuditEventType` from pec-types.ts. -/
inductive AuditEventType where
  | tool_evaluation
  | tool_approved
  | tool_rejected
  | tool_invocation
  | tool_invocation_blocked
  | compliance_warning
  | agent_initialisation
deriving DecidableEq, Repr

/-- The deployment-context snapshot `createEntry` embeds in every entry
(audit-logger.ts lines 45-49). -/
structure AuditContextSnapshot where
  governing_law : String
  jurisdiction : String
  max_risk : AiActClassification
deriving DecidableEq, Repr

/-- `AuditLogEntry` as built by `PecAuditLogger.createEntry`, restricted to
its deterministic fields: the random `id`, wall-clock `timestamp`,
`session_id` and the narrative `reasoning_trace` are omitted. -/
structure AuditLogEntry where
  event_type : AuditEventType
  tool_name : Option String
  deployment_context : AuditContextSnapshot
  compliance_metadata : Option PecComplianceMetadata
  evaluation_result : Option ComplianceCheckResult
deriving DecidableEq, Repr

/-- `PecAuditLogger.createEntry` (audit-logger.ts lines 33-55), on the
modelled fields. -/
def createEntry (context : DeploymentContext) (eventType : AuditEventType)
    (toolName : Option String) (compliance : Option PecComplianceMetadata)
    (evaluationResult : Option ComplianceCheckResult) : AuditLogEntry :=
  { event_type := eventType
    tool_name := toolName
    deployment_context :=
      ⟨context.governing_law, context.jurisdiction,
        context.risk_classification.maximum_permitted⟩
    compliance_metadata := compliance
    evaluation_result := evaluationResult }

/-- The entry `PecAuditLogger.logToolEvaluation` appends (audit-logger.ts
lines 76-92): event kind `tool_approved` when the result is compliant,
`tool_rejected` otherwise. -/
def logToolEvaluationEntry (context : DeploymentContext) (toolName : String)
    (compliance : PecComplianceMetadata) (result : ComplianceCheckResult) : AuditLogEntry :=
  createEntry context
    (if result.compliant then AuditEventType.tool_approved else AuditEventType.tool_rejected)
    (some toolName) (some compliance) (some result)

/-- The entry `PecAuditLogger.logComplianceWarning` appends (audit-logger.ts
lines 132-148). -/
def logComplianceWarningEntry (context : DeploymentContext) (toolName : String)
    (compliance : PecComplianceMetadata) (warnings : List String) : AuditLogEntry :=
  createEntry context AuditEventType.compliance_warning (some toolName) (some compliance)
    (some ⟨true, [], warnings⟩)

/-- The audit entries one `checkCompliance` call appends when a logger is
installed (compliance-filter.ts lines 207-214): nothing on the two early
returns (absent metadata, empty version string, lines 115-131, which return
before reaching the logging code); otherwise the evaluation entry, plus a
compliance-warning entry when the tool is compliant with warnings. -/
def checkComplianceAuditEntries (toolName : String)
    (compliance : Option PecComplianceMetadata)
    (context : DeploymentContext) : List AuditLogEntry :=
  match compliance with
  | none => []
  | some c =>
    if c.pec_version = "" then []
    else
      let result := checkCompliance (some c) context
      logToolEvaluationEntry context toolName c result ::
        (if result.compliant && !result.warnings.isEmpty then
          [logComplianceWarningEntry context toolName c result.warnings]
        else [])

/-- The tool record `filterCompliantTools` consumes:
`{ name: string; compliance?: PecComplianceMetadata }`. -/
structure Tool where
  name : String
  compliance : Option PecComplianceMetadata
deriving DecidableEq, Repr

/-- `filterCompliantTools` from compliance-filter.ts: one in-order pass,
routing each tool to the compliant bucket or to the rejected bucket paired
with its evaluation result. -/
def filterCompliantTools (tools : List Tool) (context : DeploymentContext) :
    List Tool × List (Tool × ComplianceCheckResult) :=
  match tools with
  | [] => ([], [])
  | tool :: rest =>
    let result := checkCompliance tool.compliance context
    let restResult := filterCompliantTools rest context
    if result.compliant then (tool :: restResult.1, restResult.2)
    else (restResult.1, (tool, result) :: restResult.2)

/-- The audit entries the orchestrator's pass appends: each iteration's
`checkCompliance` call contributes its own entries, in input order. -/
def filterCompliantToolsAuditEntries (tools : List Tool)
    (context : DeploymentContext) : List AuditLogEntry :=
  match tools with
  | [] => []
  | tool :: rest =>
    checkComplianceAuditEntries tool.name tool.compliance context ++
      filterCompliantToolsAuditEntries rest context

/-- `euDeploymentContext` from deployment-context.ts. -/
def euDeploymentContext : DeploymentContext :=
  { governing_law := "EU"
    jurisdiction := "DE"
    data_residency := ⟨["EU", "EEA", "ADEQUACY"], ["US", "CN", "RU"]⟩
    gdpr_requirements := some ⟨some ["ADEQUACY", "SCCS_2021", "BCR"], some false⟩
    risk_classification := ⟨.limited, some ⟨.limited⟩⟩
    sectors := ⟨["healthcare_diagnosis", "legal_advice", "credit_scoring",
      "biometric_identification"]⟩
    certifications := ⟨["ISO_27001", "SOC2_TYPE_II"]⟩
    unknown_handling := ⟨.strict, .permissive, .strict⟩
    legacy_servers := ⟨.block, true⟩ }

/-- `usHealthcareContext` from deployment-context.ts. -/
def usHealthcareContext : DeploymentContext :=
  { governing_law := "US"
    jurisdiction := "US-CA"
    data_residency := ⟨["US"], ["CN", "RU", "IR", "KP"]⟩
    gdpr_requirements := some ⟨some [], some true⟩
    risk_classification := ⟨.high, some ⟨.limited⟩⟩
    sectors := ⟨["biometric_identification", "emotion_recognition", "social_scoring"]⟩
    certifications := ⟨["HIPAA_COMPLIANT", "SOC2_TYPE_II", "HITRUST"]⟩
    unknown_handling := ⟨.strict, .strict, .permissive⟩
    legacy_servers := ⟨.warn, true⟩ }

/-! ## Per-rule outcome lists

Each check block of `checkCompliance` touches the threaded result only
through `pushReason` / `pushWarning`, so its contribution is a list of
reasons and a list of warnings computed from the metadata and the context
alone. The definitions below name those contributions; the lemmas that
follow prove each `apply…` block equal to appending its contribution. -/

/-- Reasons the location loop contributes: one per declared processing
location that `isLocationAllowed` rejects, in declaration order. -/
def locationReasons (c : PecComplianceMetadata) (context : DeploymentContext) : List String :=
  (c.processing_locations.filter
    (fun location => !(isLocationAllowed location context.data_residency.required
      context.data_residency.prohibited))).map locationReasonMsg

/-- Reasons the risk-threshold block contributes: the single message naming
both classifications when the tool's ordinal strictly exceeds the
permitted maximum, nothing otherwise. -/
def riskThresholdReasons (classification maximum_permitted : AiActClassification) : List String :=
  if riskLevel classification > riskLevel maximum_permitted then
    [riskReasonMsg classification maximum_permitted]
  else []

/-- Reasons the conformity-assessment block contributes: fatal only when
unassessed under strict handling of unknown risk status. -/
def conformityReasons (c : PecComplianceMetadata) (context : DeploymentContext) : List String :=
  if c.ai_act_status.conformity_assessed then []
  else if context.unknown_handling.ai_act_status = UnknownHandlingMode.strict then
    [conformityMsg]
  else []

/-- Warnings the conformity-assessment block contributes: the same text as
a warning when unassessed under non-strict handling. -/
def conformityWarnings (c : PecComplianceMetadata) (context : DeploymentContext) : List String :=
  if c.ai_act_status.conformity_assessed then []
  else if context.unknown_handling.ai_act_status = UnknownHandlingMode.strict then []
  else [conformityMsg]

/-- Reasons the GDPR block contributes: the transfer-mechanism reason then
the special-categories reason, each present iff its check is invalid;
nothing at all when the context declares no `gdpr_requirements`. -/
def gdprReasons (c : PecComplianceMetadata) (context : DeploymentContext) : List String :=
  match context.gdpr_requirements with
  | none => []
  | some g =>
    (match checkTransferMechanisms c.gdpr.transfer_mechanisms
        g.transfer_mechanisms_required with
      | ⟨false, some reason⟩ => [reason]
      | _ => []) ++
    (match checkSpecialCategories c.gdpr.special_categories_processed
        g.special_categories_allowed with
      | ⟨false, some reason⟩ => [reason]
      | _ => [])

/-- Reasons the prohibited-sector loop contributes: one per prohibited
sector tag found in the tool's `suitable_for`, in context order. -/
def sectorReasons (c : PecComplianceMetadata) (context : DeploymentContext) : List String :=
  (context.sectors.prohibited.filter
    (fun prohibited => c.suitable_for.contains prohibited)).map sectorReasonMsg

/-- Reasons the certification block contributes: fatal only when a
non-empty `required_any` is entirely missed under strict handling. -/
def certificationReasons (c : PecComplianceMetadata) (context : DeploymentContext) : List String :=
  let hasCertification := context.certifications.required_any.any
    (fun cert => c.certifications.contains cert)
  if hasCertification = false ∧ 0 < context.certifications.required_any.length then
    if context.unknown_handling.certifications = UnknownHandlingMode.strict then
      [certificationsReasonMsg context.certifications.required_any]
    else []
  else []

/-- Warnings the certification block contributes under non-strict handling. -/
def certificationWarnings (c : PecComplianceMetadata) (context : DeploymentContext) : List String :=
  let hasCertification := context.certifications.required_any.any
    (fun cert => c.certifications.contains cert)
  if hasCertification = false ∧ 0 < context.certifications.required_any.length then
    if context.unknown_handling.certifications = UnknownHandlingMode.strict then []
    else [certificationsWarningMsg context.certifications.required_any]
  else []

/-- Warnings the supply-chain block contributes. -/
def supplyChainWarnings (c : PecComplianceMetadata) : List String :=
  if c.supply_chain_disclosure then [] else [supplyChainMsg]

/-- All fatal reasons of the full battery, one segment per rule, in the
source's evaluation order. -/
def allReasons (c : PecComplianceMetadata) (context : DeploymentContext) : List String :=
  locationReasons c context ++
    riskThresholdReasons c.ai_act_status.classification
      context.risk_classification.maximum_permitted ++
    conformityReasons c context ++
    gdprReasons c context ++
    sectorReasons c context ++
    certificationReasons c context

/-- All warnings of the full battery, in the source's emission order. -/
def allWarnings (c : PecComplianceMetadata) (context : DeploymentContext) : List String :=
  conformityWarnings c context ++ certificationWarnings c context ++
    supplyChainWarnings c

lemma isEmpty_append (l₁ l₂ : List α) :
    (l₁ ++ l₂).isEmpty = (l₁.isEmpty && l₂.isEmpty) := by
  cases l₁ <;> simp

lemma isEmpty_map (f : α → β) (l : List α) : (l.map f).isEmpty = l.isEmpty := by
  cases l <;> rfl

lemma foldl_push_if (p : α → Bool) (m : α → String) :
    ∀ (l : List α) (r : ComplianceCheckResult),
      l.foldl (fun acc x => if p x then pushReason acc (m x) else acc) r =
        ⟨r.compliant && (l.filter p).isEmpty,
          r.reasons ++ (l.filter p).map m, r.warnings⟩
  | [], r => by simp
  | x :: l, r => by
    by_cases hx : p x
    · rw [List.foldl_cons, if_pos hx, foldl_push_if p m l]
      simp [pushReason, List.filter_cons, hx]
    · rw [List.foldl_cons, if_neg hx, foldl_push_if p m l]
      simp [List.filter_cons, hx]

lemma foldl_skip_if (p : α → Bool) (m : α → String) :
    ∀ (l : List α) (r : ComplianceCheckResult),
      l.foldl (fun acc x => if p x then acc else pushReason acc (m x)) r =
        ⟨r.compliant && (l.filter (fun x => !p x)).isEmpty,
          r.reasons ++ (l.filter (fun x => !p x)).map m, r.warnings⟩
  | [], r => by simp
  | x :: l, r => by
    by_cases hx : p x
    · rw [List.foldl_cons, if_pos hx, foldl_skip_if p m l]
      simp [List.filter_cons, hx]
    · rw [List.foldl_cons, if_neg hx, foldl_skip_if p m l]
      simp [pushReason, List.filter_cons, hx]

lemma applyLocationCheck_eq (c : PecComplianceMetadata) (context : DeploymentContext)
    (r : ComplianceCheckResult) :
    applyLocationCheck c context r =
      ⟨r.compliant && (locationReasons c context).isEmpty,
        r.reasons ++ locationReasons c context, r.warnings⟩ := by
  unfold applyLocationCheck locationReasons
  rw [foldl_skip_if]
  simp [isEmpty_map]

lemma applyRiskCheck_eq (c : PecComplianceMetadata) (context : DeploymentContext)
    (r : ComplianceCheckResult) :
    applyRiskCheck c context r =
      ⟨r.compliant &&
          (riskThresholdReasons c.ai_act_status.classification
            context.risk_classification.maximum_permitted).isEmpty,
        r.reasons ++ riskThresholdReasons c.ai_act_status.classification
          context.risk_classification.maximum_permitted,
        r.warnings⟩ := by
  unfold applyRiskCheck riskThresholdReasons
  by_cases h : riskLevel c.ai_act_status.classification >
      riskLevel context.risk_classification.maximum_permitted <;>
    simp [h, pushReason]

lemma applyConformityCheck_eq (c : PecComplianceMetadata) (context : DeploymentContext)
    (r : ComplianceCheckResult) :
    applyConformityCheck c context r =
      ⟨r.compliant && (conformityReasons c context).isEmpty,
        r.reasons ++ conformityReasons c context,
        r.warnings ++ conformityWarnings c context⟩ := by
  unfold applyConformityCheck conformityReasons conformityWarnings
  by_cases h1 : c.ai_act_status.conformity_assessed
  · simp [h1]
  · by_cases h2 : context.unknown_handling.ai_act_status = UnknownHandlingMode.strict <;>
      simp [h1, h2, pushReason, pushWarning]

lemma applyGdprChecks_eq (c : PecComplianceMetadata) (context : DeploymentContext)
    (r : ComplianceCheckResult) :
    applyGdprChecks c context r =
      ⟨r.compliant && (gdprReasons c context).isEmpty,
        r.reasons ++ gdprReasons c context, r.warnings⟩ := by
  unfold applyGdprChecks gdprReasons
  cases hg : context.gdpr_requirements with
  | none => simp
  | some g =>
    rcases hv : checkTransferMechanisms c.gdpr.transfer_mechanisms
      g.transfer_mechanisms_required with ⟨v1, o1⟩
    rcases hs : checkSpecialCategories c.gdpr.special_categories_processed
      g.special_categories_allowed with ⟨v2, o2⟩
    simp only [hv, hs]
    cases v1 <;> cases o1 <;> cases v2 <;> cases o2 <;>
      simp [pushReason, List.append_assoc]

lemma applySectorCheck_eq (c : PecComplianceMetadata) (context : DeploymentContext)
    (r : ComplianceCheckResult) :
    applySectorCheck c context r =
      ⟨r.compliant && (sectorReasons c context).isEmpty,
        r.reasons ++ sectorReasons c context, r.warnings⟩ := by
  unfold applySectorCheck sectorReasons
  rw [foldl_push_if]
  simp only [isEmpty_map]

lemma applyCertificationCheck_eq (c : PecComplianceMetadata) (context : DeploymentContext)
    (r : ComplianceCheckResult) :
    applyCertificationCheck c context r =
      ⟨r.compliant && (certificationReasons c context).isEmpty,
        r.reasons ++ certificationReasons c context,
        r.warnings ++ certificationWarnings c context⟩ := by
  unfold applyCertificationCheck certificationReasons certificationWarnings
  split_ifs with h1 <;> simp [pushReason, pushWarning] <;>
    split_ifs <;> simp

lemma applySupplyChainCheck_eq (c : PecComplianceMetadata)
    (r : ComplianceCheckResult) :
    applySupplyChainCheck c r =
      ⟨r.compliant, r.reasons, r.warnings ++ supplyChainWarnings c⟩ := by
  unfold applySupplyChainCheck supplyChainWarnings
  by_cases h : c.supply_chain_disclosure <;> simp [h, pushWarning]

/-- Decomposition of the full battery: the result collects each rule's
contribution in order, and is compliant exactly when no rule contributed a
reason. -/
lemma runChecks_eq (c : PecComplianceMetadata) (context : DeploymentContext) :
    runChecks c context =
      ⟨(allReasons c context).isEmpty, allReasons c context, allWarnings c context⟩ := by
  unfold runChecks allReasons allWarnings
  rw [applyLocationCheck_eq, applyRiskCheck_eq, applyConformityCheck_eq,
    applyGdprChecks_eq, applySectorCheck_eq, applyCertificationCheck_eq,
    applySupplyChainCheck_eq]
  simp [isEmpty_append, Bool.and_assoc, List.append_assoc]

/-- `checkCompliance` on metadata carrying a non-empty version string is the
full battery, decomposed. -/
lemma checkCompliance_some_eq (c : PecComplianceMetadata) (context : DeploymentContext)
    (h : c.pec_version ≠ "") :
    checkCompliance (some c) context =
      ⟨(allReasons c context).isEmpty, allReasons c context, allWarnings c context⟩ := by
  simp only [checkCompliance]
  rw [if_neg h]
  exact runChecks_eq c context

/-! ## Concrete records for witnesses and counterexamples -/

/-- A tool declaring the aggregate code EU as its literal processing
location, benign in every other dimension under the EU context. -/
def euLocationTool : PecComplianceMetadata :=
  { pec_version := "1.0"
    processing_locations := ["EU"]
    data_retention_days := 30
    certifications := ["ISO_27001"]
    ai_act_status := ⟨.minimal, true, none⟩
    gdpr := ⟨.processor, ["ADEQUACY"], true, false⟩
    suitable_for := []
    unsuitable_for := []
    supply_chain_disclosure := true
    metadata_currency := ⟨"2024-01-01", .monthly, none⟩ }

/-- The EU context with its residency policy narrowed to require the
aggregate code EU and prohibit nothing. -/
def euAggregateContext : DeploymentContext :=
  { euDeploymentContext with data_residency := ⟨["EU"], []⟩ }

/-- A tool violating exactly the risk threshold and the sector rule under
the EU context: classification high against maximum limited, and suitable
for the prohibited sector healthcare_diagnosis; clean elsewhere. -/
def riskAndSectorTool : PecComplianceMetadata :=
  { pec_version := "1.0"
    processing_locations := ["DE"]
    data_retention_days := 30
    certifications := ["ISO_27001"]
    ai_act_status := ⟨.high, true, none⟩
    gdpr := ⟨.processor, ["ADEQUACY"], true, false⟩
    suitable_for := ["healthcare_diagnosis"]
    unsuitable_for := []
    supply_chain_disclosure := true
    metadata_currency := ⟨"2024-01-01", .monthly, none⟩ }

/-- A metadata record with an empty version string that would violate both
the risk threshold (unacceptable against maximum limited) and the sector
rule under the EU context. -/
def emptyVersionTool : PecComplianceMetadata :=
  { pec_version := ""
    processing_locations := []
    data_retention_days := 0
    certifications := []
    ai_act_status := ⟨.unacceptable, true, none⟩
    gdpr := ⟨.processor, ["ADEQUACY"], true, false⟩
    suitable_for := ["healthcare_diagnosis"]
    unsuitable_for := []
    supply_chain_disclosure := true
    metadata_currency := ⟨"2024-01-01", .monthly, none⟩ }

/-- The EU context with the legacy-server policy relaxed to allow. -/
def allowLegacyContext : DeploymentContext :=
  { euDeploymentContext with legacy_servers := ⟨.allow, true⟩ }

/-! ## Claim theorems -/

/-- C3: for every declared processing location and every required/prohibited
code set, membership of the uppercased location in the flattened prohibited
expansions forces rejection regardless of the required set (prohibition
precedence, even for a location derivable from both sides); otherwise the
location is allowed iff it is in the flattened required expansions, so
absence from both sets is rejection. -/
theorem isLocationAllowed_prohibition_precedence
    (location : String) (required prohibited : List String) :
    (((prohibited.map expandJurisdiction).flatten.contains (toUpperCase location) = true) →
      isLocationAllowed location required prohibited = false) ∧
    (((prohibited.map expandJurisdiction).flatten.contains (toUpperCase location) = false) →
      isLocationAllowed location required prohibited =
        (required.map expandJurisdiction).flatten.contains (toUpperCase location)) ∧
    (((prohibited.map expandJurisdiction).flatten.contains (toUpperCase location) = false ∧
        (required.map expandJurisdiction).flatten.contains (toUpperCase location) = false) →
      isLocationAllowed location required prohibited = false) := by
  unfold isLocationAllowed
  refine ⟨fun hb => ?_, fun hb => ?_, fun hb => ?_⟩
  · rw [if_pos hb]
  · rw [if_neg (by rw [hb]; simp)]
  · rw [if_neg (by rw [hb.1]; simp), hb.2]

/-- C5: for every metadata option and context, the evaluation is compliant
exactly when its reason list is empty; `compliant` is thereby a function of
the reasons alone, so the warnings content never affects it. -/
theorem checkCompliance_compliant_iff_no_reasons
    (compliance : Option PecComplianceMetadata) (context : DeploymentContext) :
    (checkCompliance compliance context).compliant = true ↔
      (checkCompliance compliance context).reasons = [] := by
  match compliance with
  | none =>
    simp only [checkCompliance]
    cases context.legacy_servers.policy <;> simp
  | some c =>
    by_cases h : c.pec_version = ""
    · simp only [checkCompliance]
      rw [if_pos h]
      cases context.legacy_servers.policy <;> simp
    · rw [checkCompliance_some_eq c context h]
      simp [List.isEmpty_iff]

/-- C7: with metadata absent the outcome is decided by the legacy-server
policy alone: `block` gives non-compliance with exactly the one legacy
reason and nothing else (no further check contributes), `warn` gives
compliance with exactly one warning, `allow` gives compliance with no
reason and no warning. -/
theorem checkCompliance_absent_metadata_policy (context : DeploymentContext) :
    (context.legacy_servers.policy = LegacyServerPolicy.block →
      checkCompliance none context = ⟨false, [legacyBlockedMsg], []⟩) ∧
    (context.legacy_servers.policy = LegacyServerPolicy.warn →
      checkCompliance none context = ⟨true, [], [legacyWarnMsg]⟩) ∧
    (context.legacy_servers.policy = LegacyServerPolicy.allow →
      checkCompliance none context = ⟨true, [], []⟩) := by
  unfold checkCompliance
  refine ⟨fun hp => ?_, fun hp => ?_, fun hp => ?_⟩ <;> rw [hp]

/-- C10: a tool's declared processing locations are matched literally
(after uppercasing) against the expanded required/prohibited sets, never
themselves expanded: the expansion of the aggregate code EU does not
contain the literal string EU, so a tool declaring location EU under a
context requiring EU (and prohibiting nothing) is rejected by the location
check, and `checkCompliance` emits the corresponding location reason. -/
theorem processing_locations_not_expanded :
    (∀ (location : String) (required prohibited : List String),
      isLocationAllowed location required prohibited =
        (!(prohibited.map expandJurisdiction).flatten.contains (toUpperCase location) &&
          (required.map expandJurisdiction).flatten.contains (toUpperCase location))) ∧
    (expandJurisdiction "EU").contains "EU" = false ∧
    isLocationAllowed "EU" ["EU"] [] = false ∧
    (checkCompliance (some euLocationTool) euAggregateContext).reasons =
      [locationReasonMsg "EU"] ∧
    (checkCompliance (some euLocationTool) euAggregateContext).compliant = false := by
  refine ⟨fun location required prohibited => ?_, by decide, by decide, by decide, by decide⟩
  unfold isLocationAllowed
  by_cases hb : (prohibited.map expandJurisdiction).flatten.contains (toUpperCase location) <;>
    simp [hb]

/-- C1 (amended): for every metadata record carrying a non-empty version
string, no check short-circuits another: the accumulated reasons are
exactly the concatenation of each rule's independently computed violations,
so their number is the sum of the per-rule violation counts (a tool
violating both the risk threshold and the sector rule shows exactly two
reasons). With an empty version string the battery is skipped instead (see
the counterexample). -/
theorem checkCompliance_reasons_additive (c : PecComplianceMetadata)
    (context : DeploymentContext) (h : c.pec_version ≠ "") :
    (checkCompliance (some c) context).reasons =
      locationReasons c context ++
        riskThresholdReasons c.ai_act_status.classification
          context.risk_classification.maximum_permitted ++
        conformityReasons c context ++ gdprReasons c context ++
        sectorReasons c context ++ certificationReasons c context ∧
    (checkCompliance (some c) context).reasons.length =
      (locationReasons c context).length +
        (riskThresholdReasons c.ai_act_status.classification
          context.risk_classification.maximum_permitted).length +
        (conformityReasons c context).length + (gdprReasons c context).length +
        (sectorReasons c context).length + (certificationReasons c context).length := by
  rw [checkCompliance_some_eq c context h]
  exact ⟨rfl, by simp [allReasons]; omega⟩

/-- C1 witness: the EU-context tool violating exactly the risk threshold
and the sector rule accumulates exactly two reasons. -/
theorem checkCompliance_reasons_additive_witness :
    riskAndSectorTool.pec_version ≠ "" ∧
    (checkCompliance (some riskAndSectorTool) euDeploymentContext).reasons.length = 2 :=
  ⟨by decide, by
    rw [(checkCompliance_reasons_additive riskAndSectorTool euDeploymentContext
      (by decide)).2]
    decide⟩

/-- C1 counterexample: a metadata record with an empty version string that
independently violates both the risk threshold and the sector rule, yet
accumulates zero reasons under an allow legacy policy, because the empty
version short-circuits the whole battery (compliance-filter.ts lines
125-131). -/
theorem checkCompliance_empty_version_short_circuits :
    (checkCompliance (some emptyVersionTool) allowLegacyContext).reasons = [] ∧
    riskThresholdReasons emptyVersionTool.ai_act_status.classification
      allowLegacyContext.risk_classification.maximum_permitted ≠ [] ∧
    sectorReasons emptyVersionTool allowLegacyContext ≠ [] := by
  refine ⟨by decide, by decide, by decide⟩

/-- C6: the risk-threshold rule is monotone in the fixed six-level order:
for classifications a strictly below b, a context permitting at most b
yields no risk-threshold reason at a or at b, and for every classification
strictly above b it yields exactly the fatal reason naming both values,
which makes the overall evaluation non-compliant for any versioned
metadata at that classification. -/
theorem riskThreshold_monotone (a b : AiActClassification)
    (h : riskLevel a < riskLevel b) :
    riskThresholdReasons a b = [] ∧
    riskThresholdReasons b b = [] ∧
    (∀ x : AiActClassification, riskLevel b < riskLevel x →
      riskThresholdReasons x b = [riskReasonMsg x b]) ∧
    (∀ (c : PecComplianceMetadata) (context : DeploymentContext),
      c.pec_version ≠ "" →
      context.risk_classification.maximum_permitted = b →
      riskLevel b < riskLevel c.ai_act_status.classification →
      riskReasonMsg c.ai_act_status.classification b ∈
        (checkCompliance (some c) context).reasons ∧
      (checkCompliance (some c) context).compliant = false) := by
  refine ⟨?_, ?_, fun x hx => ?_, fun c context hv hmax hx => ?_⟩
  · unfold riskThresholdReasons
    rw [if_neg (by omega)]
  · unfold riskThresholdReasons
    rw [if_neg (by omega)]
  · unfold riskThresholdReasons
    rw [if_pos hx]
  · rw [checkCompliance_some_eq c context hv]
    have hr : riskThresholdReasons c.ai_act_status.classification
        context.risk_classification.maximum_permitted =
        [riskReasonMsg c.ai_act_status.classification b] := by
      unfold riskThresholdReasons
      rw [hmax, if_pos hx]
    constructor
    · simp [allReasons, hr]
    · simp [allReasons, isEmpty_append, hr]

/-- C6 witness: minimal sits strictly below limited, and a tool at minimal
draws no risk-threshold reason from a context capped at limited. -/
theorem riskThreshold_monotone_witness :
    riskLevel AiActClassification.minimal < riskLevel AiActClassification.limited ∧
    riskThresholdReasons AiActClassification.minimal AiActClassification.limited = [] :=
  ⟨by decide,
    (riskThreshold_monotone AiActClassification.minimal AiActClassification.limited
      (by decide)).1⟩

/-- C8: the transfer-mechanism check passes trivially when the required
set is absent or empty; for a non-empty required set it fails exactly when
the tool declares no overlapping mechanism, returning the more specific
no-mechanisms-declared message when the tool declares none at all and the
no-overlap message otherwise — two messages that can never coincide; and
the whole GDPR block contributes nothing when the context declares no
`gdpr_requirements`. -/
theorem checkTransferMechanisms_spec (toolMechanisms req : List String) :
    checkTransferMechanisms toolMechanisms none = ⟨true, none⟩ ∧
    checkTransferMechanisms toolMechanisms (some []) = ⟨true, none⟩ ∧
    (req ≠ [] →
      ((checkTransferMechanisms toolMechanisms (some req)).valid = false ↔
        ¬ ∃ m, m ∈ toolMechanisms ∧ m ∈ req)) ∧
    (req ≠ [] → toolMechanisms = [] →
      checkTransferMechanisms toolMechanisms (some req) =
        ⟨false, some (transferNoneDeclaredMsg req)⟩) ∧
    (req ≠ [] → toolMechanisms ≠ [] →
      (¬ ∃ m, m ∈ toolMechanisms ∧ m ∈ req) →
      checkTransferMechanisms toolMechanisms (some req) =
        ⟨false, some (transferNoOverlapMsg toolMechanisms req)⟩) ∧
    (∀ r1 r2 : List String,
      transferNoneDeclaredMsg r1 ≠ transferNoOverlapMsg toolMechanisms r2) ∧
    (∀ (c : PecComplianceMetadata) (context : DeploymentContext),
      context.gdpr_requirements = none → gdprReasons c context = []) := by
  have hlen : req ≠ [] → ¬ req.length = 0 := by
    intro hr hl
    exact hr (List.length_eq_zero.mp hl)
  refine ⟨rfl, rfl, fun hr => ?_, fun hr ht => ?_, fun hr ht hov => ?_,
    fun r1 r2 hcontra => ?_, fun c context hg => ?_⟩
  · simp only [checkTransferMechanisms]
    rw [if_neg (hlen hr)]
    by_cases ht : toolMechanisms.length = 0
    · rw [if_pos ht]
      simp [List.length_eq_zero.mp ht]
    · rw [if_neg ht]
      by_cases hany : toolMechanisms.any (fun m => req.contains m)
      · rw [if_pos hany]
        simp only [List.any_eq_true, List.elem_iff] at hany
        simp [hany]
      · rw [if_neg hany]
        simp only [List.any_eq_true, List.elem_iff] at hany
        push_neg at hany
        simp
        intro m hm
        exact hany m hm
  · simp only [checkTransferMechanisms]
    rw [if_neg (hlen hr), if_pos (by simp [ht])]
  · simp only [checkTransferMechanisms]
    rw [if_neg (hlen hr), if_neg (by simp [List.length_eq_zero]; exact ht),
      if_neg (by
        simp only [List.any_eq_true, List.elem_iff]
        exact hov)]
  · have h2 := congrArg (fun s => s.data[5]?) hcontra
    simp only [transferNoneDeclaredMsg, transferNoOverlapMsg,
      String.data_append] at h2
    simp [List.getElem?_append] at h2
  · unfold gdprReasons
    rw [hg]

/-- C9: the escalate value of `unknownHandling` behaves exactly as
permissive for both dimensions the battery consults: replacing escalate by
permissive in either `ai_act_status` or `certifications` handling changes
nothing in the evaluation, and under escalate the conformity and
certification rules contribute warnings only, never a fatal reason. -/
theorem unknownHandling_escalate_is_permissive
    (compliance : Option PecComplianceMetadata) (context : DeploymentContext) :
    (checkCompliance compliance
        { context with unknown_handling :=
          { context.unknown_handling with
            ai_act_status := UnknownHandlingMode.escalate } } =
      checkCompliance compliance
        { context with unknown_handling :=
          { context.unknown_handling with
            ai_act_status := UnknownHandlingMode.permissive } }) ∧
    (checkCompliance compliance
        { context with unknown_handling :=
          { context.unknown_handling with
            certifications := UnknownHandlingMode.escalate } } =
      checkCompliance compliance
        { context with unknown_handling :=
          { context.unknown_handling with
            certifications := UnknownHandlingMode.permissive } }) ∧
    (∀ c : PecComplianceMetadata,
      context.unknown_handling.ai_act_status = UnknownHandlingMode.escalate →
      conformityReasons c context = [] ∧
      (c.ai_act_status.conformity_assessed = false →
        conformityWarnings c context = [conformityMsg])) ∧
    (∀ c : PecComplianceMetadata,
      context.unknown_handling.certifications = UnknownHandlingMode.escalate →
      certificationReasons c context = [] ∧
      ((context.certifications.required_any.any
          (fun cert => c.certifications.contains cert)) = false →
        0 < context.certifications.required_any.length →
        certificationWarnings c context =
          [certificationsWarningMsg context.certifications.required_any])) := by
  refine ⟨rfl, rfl, fun c hmode => ⟨?_, fun hassessed => ?_⟩,
    fun c hmode => ⟨?_, fun hmiss hlen => ?_⟩⟩
  · unfold conformityReasons
    rw [hmode]
    split_ifs <;> simp_all
  · unfold conformityWarnings
    rw [hassessed, hmode]
    simp
  · unfold certificationReasons
    rw [hmode]
    split_ifs <;> simp_all
  · unfold certificationWarnings
    rw [hmode]
    rw [if_pos ⟨hmiss, hlen⟩]
    simp

lemma filterCompliantTools_fst_eq (context : DeploymentContext) :
    ∀ tools : List Tool,
      (filterCompliantTools tools context).1 =
        tools.filter (fun tool => (checkCompliance tool.compliance context).compliant)
  | [] => rfl
  | tool :: rest => by
    simp only [filterCompliantTools, List.filter_cons]
    by_cases hc : (checkCompliance tool.compliance context).compliant <;>
      simp [hc, filterCompliantTools_fst_eq context rest]

lemma filterCompliantTools_snd_eq (context : DeploymentContext) :
    ∀ tools : List Tool,
      (filterCompliantTools tools context).2.map Prod.fst =
        tools.filter (fun tool => !(checkCompliance tool.compliance context).compliant)
  | [] => rfl
  | tool :: rest => by
    simp only [filterCompliantTools, List.filter_cons]
    by_cases hc : (checkCompliance tool.compliance context).compliant <;>
      simp [hc, filterCompliantTools_snd_eq context rest]

lemma length_filter_add_length_filter_not (p : α → Bool) :
    ∀ l : List α, (l.filter p).length + (l.filter (fun x => !p x)).length = l.length
  | [] => rfl
  | x :: l => by
    by_cases hx : p x <;>
      simp [List.filter_cons, hx, ← length_filter_add_length_filter_not p l] <;>
      omega

/-- C4: the filter orchestrator partitions any input sequence without
reordering: the compliant bucket is exactly the in-order filter of the
input by the evaluation verdict and the rejected bucket the in-order
filter by its negation — so each original position lands in exactly one
bucket and merging the buckets by position reconstructs the input — and
both buckets are sublists of the input with lengths summing to the input
length. -/
theorem filterCompliantTools_order_preservation
    (tools : List Tool) (context : DeploymentContext) :
    (filterCompliantTools tools context).1 =
      tools.filter (fun tool => (checkCompliance tool.compliance context).compliant) ∧
    (filterCompliantTools tools context).2.map Prod.fst =
      tools.filter (fun tool => !(checkCompliance tool.compliance context).compliant) ∧
    (filterCompliantTools tools context).1.Sublist tools ∧
    ((filterCompliantTools tools context).2.map Prod.fst).Sublist tools ∧
    (filterCompliantTools tools context).1.length +
      (filterCompliantTools tools context).2.length = tools.length := by
  refine ⟨filterCompliantTools_fst_eq context tools,
    filterCompliantTools_snd_eq context tools, ?_, ?_, ?_⟩
  · rw [filterCompliantTools_fst_eq context tools]
    exact List.filter_sublist tools
  · rw [filterCompliantTools_snd_eq context tools]
    exact List.filter_sublist tools
  · have hlen : (filterCompliantTools tools context).2.length =
        ((filterCompliantTools tools context).2.map Prod.fst).length :=
      (List.length_map _ _).symm
    rw [filterCompliantTools_fst_eq context tools, hlen,
      filterCompliantTools_snd_eq context tools]
    exact length_filter_add_length_filter_not _ tools

/-- C2 (amended): the orchestrator's audit trail is the in-order
concatenation of each tool's own entries; a tool whose metadata is present
with a non-empty version string contributes exactly one evaluation entry
(first, of kind tool_approved iff compliant, tool_rejected otherwise) plus
exactly one compliance_warning entry iff it is admitted with a non-empty
warning list; a tool with absent metadata or an empty version string
contributes no entries at all (the early returns of compliance-filter.ts
lines 115-131 precede the logging at lines 207-214). -/
theorem audit_entries_per_tool (tools : List Tool) (context : DeploymentContext) :
    filterCompliantToolsAuditEntries tools context =
      (tools.map (fun tool =>
        checkComplianceAuditEntries tool.name tool.compliance context)).flatten ∧
    (∀ (tool : Tool) (c : PecComplianceMetadata), tool.compliance = some c →
      c.pec_version ≠ "" →
      (checkComplianceAuditEntries tool.name tool.compliance context).length =
        (if (checkCompliance (some c) context).compliant = true ∧
            (checkCompliance (some c) context).warnings ≠ [] then 2 else 1) ∧
      (checkComplianceAuditEntries tool.name tool.compliance context).head? =
        some (logToolEvaluationEntry context tool.name c
          (checkCompliance (some c) context)) ∧
      (logToolEvaluationEntry context tool.name c
          (checkCompliance (some c) context)).event_type =
        (if (checkCompliance (some c) context).compliant then
          AuditEventType.tool_approved else AuditEventType.tool_rejected) ∧
      ((checkComplianceAuditEntries tool.name tool.compliance context).filter
          (fun e => e.event_type == AuditEventType.compliance_warning)).length =
        (if (checkCompliance (some c) context).compliant = true ∧
            (checkCompliance (some c) context).warnings ≠ [] then 1 else 0)) ∧
    (∀ tool : Tool,
      (tool.compliance = none ∨
        ∃ c, tool.compliance = some c ∧ c.pec_version = "") →
      checkComplianceAuditEntries tool.name tool.compliance context = []) := by
  refine ⟨?_, fun tool c hc hv => ?_, fun tool hcase => ?_⟩
  · induction tools with
    | nil => rfl
    | cons t rest ih => simp [filterCompliantToolsAuditEntries, ih]
  · rw [hc]
    simp only [checkComplianceAuditEntries]
    rw [if_neg hv]
    by_cases hcomp : (checkCompliance (some c) context).compliant
    · by_cases hw : (checkCompliance (some c) context).warnings = []
      · simp [logToolEvaluationEntry, logComplianceWarningEntry, createEntry,
          hcomp, hw, List.filter_cons, beq_iff_eq]
      · simp [logToolEvaluationEntry, logComplianceWarningEntry, createEntry,
          hcomp, hw, List.isEmpty_iff, List.filter_cons, beq_iff_eq]
    · simp only [Bool.not_eq_true] at hcomp
      simp [logToolEvaluationEntry, logComplianceWarningEntry, createEntry,
        hcomp, List.filter_cons, beq_iff_eq]
  · rcases hcase with hnone | ⟨c, hc, hv⟩
    · rw [hnone]
      rfl
    · rw [hc]
      simp only [checkComplianceAuditEntries]
      rw [if_pos hv]

/-- C2 counterexample: the orchestrator processes one tool with absent
metadata yet appends zero audit entries, not one; likewise a tool with an
empty version string produces no entries. -/
theorem audit_entries_absent_metadata_none :
    filterCompliantToolsAuditEntries [⟨"legacy_tool", none⟩] euDeploymentContext = [] ∧
    checkComplianceAuditEntries "unversioned_tool" (some emptyVersionTool)
      usHealthcareContext = [] := by
  refine ⟨rfl, by decide⟩

end PEC
